import Mathlib

/-!
Shallow embedding of `debtcollector/moves.py` (openstack/deb-python-debtcollector).

The module builds deprecation wrappers around "moved" functions, methods,
properties and classes.  Each wrapper, when invoked, emits one deprecation
warning through the host warning channel and then forwards the call to the
real target.  We embed the observable behaviour of a wrapper invocation as a
pair: the ordered list of events it performs (warning emissions and the
forwarding call, in order) together with the value it returns.

`debtcollector/_utils.py` is not part of the examined sources; its helpers
(`generate_message`, `deprecation`, the name resolvers) are modelled from the
specification's description of the Message Formatter, the Warning Emitter and
the Name Resolver.
-/

set_option autoImplicit false

namespace Moves

/-- An observable event of one wrapper invocation: either a warning carrying
its message text (plus the stack-level hint and optional category handed to
the warning channel), or the single forwarding call to the real target,
carrying the argument tuple passed through. -/
inductive Event (α : Type) where
  | warn (msg : String) (stacklevel : Nat) (category : Option String)
  | call (arg : α)
  deriving DecidableEq, Repr

/-- Modelled from the spec: `_utils.deprecation` (in `debtcollector/_utils.py`,
absent from the examined sources).  "Side effect only: issues one warning
through the host's diagnostic/warning channel", using the given category (or
the default) and stacklevel.  We record it as exactly one `Event.warn`. -/
def deprecation {α : Type} (message : String) (stacklevel : Nat)
    (category : Option String) : List (Event α) :=
  [Event.warn message stacklevel category]

/-- Modelled from the spec: `_utils.generate_message` (in
`debtcollector/_utils.py`, absent from the examined sources).  "Output is
`prefix` alone if no optional fields given; otherwise each present field is
appended in a fixed order (custom message, then version info) separated by
fixed punctuation (". ").  Version info renders as "in version V" and, if
removal_version is present, appends "and will be removed in removal_version"
— except when removal_version is the literal sentinel "?" in which case it
renders as "and will be removed in a future version"." -/
def generate_message (pre : String) (message version removal_version :
    Option String) : String :=
  let withMsg :=
    match message with
    | some m => pre ++ ". " ++ m
    | none => pre
  match version with
  | none => withMsg
  | some v =>
    let versionInfo :=
      match removal_version with
      | none => "in version " ++ v
      | some r =>
        if r = "?" then
          "in version " ++ v ++ " and will be removed in a future version"
        else
          "in version " ++ v ++ " and will be removed in " ++ r
    withMsg ++ ". " ++ versionInfo

/-- A host-language callable as the Name Resolver sees it: its simple name,
its module, and (for the embedding) its behaviour as a pure function. -/
structure PyCallable (α β : Type) where
  name : String
  module : String
  fn : α → β

/-- Modelled from the spec: `_utils.get_callable_name` (Name Resolver, in
`debtcollector/_utils.py`, absent from the examined sources): the dotted
qualified path of a callable relative to its owning module. -/
def get_callable_name {α β : Type} (f : PyCallable α β) : String :=
  f.module ++ "." ++ f.name

/-- `_MOVED_CALLABLE_POSTFIX` of `moves.py` (line 26): the `"()"` marker
appended to callable names in messages. -/
def _MOVED_CALLABLE_SUFFIX : String := "()"

/-- `_FUNC_MOVED_PREFIX_TPL` of `moves.py` (line 27), applied to its two
interpolands. -/
def _FUNC_MOVED_TPL (old new : String) : String :=
  "Function '" ++ old ++ "' has moved to '" ++ new ++ "'"

/-- `_KIND_MOVED_PREFIX_TPL` of `moves.py` (line 24), applied to its three
interpolands. -/
def _KIND_MOVED_TPL (kind old new : String) : String :=
  kind ++ " '" ++ old ++ "' has moved to '" ++ new ++ "'"

/-- `_CLASS_MOVED_PREFIX_TPL` of `moves.py` (line 25), applied to its two
interpolands. -/
def _CLASS_MOVED_TPL (old new : String) : String :=
  "Class '" ++ old ++ "' has moved to '" ++ new ++ "'"

/-- The wrapper returned by `moved_function`: the callable's identity
metadata (`__name__`/`__module__`, overwritten at lines 85-86 of `moves.py`)
together with its invocation behaviour, which now yields both the emitted
events and the returned value. -/
structure TracedCallable (α β : Type) where
  name : String
  module : String
  fn : α → List (Event α) × β

/-- `moved_function` of `moves.py` (lines 61-87).  Builds the message once
from the unconditionally `"()"`-suffixed old and new qualified names, then
returns `old_new_func`, which on each invocation calls
`_utils.deprecation(out_message, ...)` and then forwards to
`new_func(*args, **kwargs)`, returning its result.  The wrapper's
`__name__`/`__module__` are set to the old name and module. -/
def moved_function {α β : Type} (new_func : PyCallable α β)
    (old_func_name old_module_name : String)
    (message version removal_version : Option String)
    (stacklevel : Nat) (category : Option String) : TracedCallable α β :=
  let new_func_full_name := get_callable_name new_func ++ _MOVED_CALLABLE_SUFFIX
  let old_func_full_name :=
    old_module_name ++ "." ++ old_func_name ++ _MOVED_CALLABLE_SUFFIX
  let pre := _FUNC_MOVED_TPL old_func_full_name new_func_full_name
  let out_message := generate_message pre message version removal_version
  { name := old_func_name
    module := old_module_name
    fn := fun args =>
      (deprecation out_message stacklevel category ++ [Event.call args],
       new_func.fn args) }

/-- The decoration-time view of a method/property that `_moved_decorator`
receives: `_utils.get_qualified_name(f)` resolves to a flag telling whether
the resolved name is already fully qualified plus the simple attribute name
(line 36 of `moves.py`), and `f` is the decorated function's behaviour.
At call time, `wrapt` additionally supplies the runtime instance; the
Name Resolver derives from it the owning class's simple display name
(`_utils.get_class_name(wrapped, fully_qualified=False)`, line 42), which we
carry as the call-time input `base_name`. -/
structure DecoratedFunc (α β : Type) where
  fully_qualified : Bool
  attr_name : String
  fn : α → β

/-- `_moved_decorator` of `moves.py` (lines 30-58), the factory shared by
`moved_method` and `moved_property`.  At decoration time the old attribute
name gets `attr_postfix` appended when one is given (lines 37-38).  The
returned wrapper, at each invocation, resolves the runtime owning class name
`base_name`, builds the old and new dotted names, formats the message with
`_utils.generate_message`, emits it with `_utils.deprecation`, and then
forwards the call to the wrapped function (lines 41-54). -/
def _moved_decorator {α β : Type} (kind new_attribute_name : String)
    (message version removal_version : Option String)
    (stacklevel : Nat) (attr_suffix : Option String) (category : Option String)
    (f : DecoratedFunc α β) :
    String → α → List (Event α) × β :=
  let old_attribute_name :=
    match attr_suffix with
    | some s => f.attr_name ++ s
    | none => f.attr_name
  fun base_name args =>
    let old_name :=
      if f.fully_qualified then old_attribute_name
      else base_name ++ "." ++ old_attribute_name
    let new_name := base_name ++ "." ++ new_attribute_name
    let pre := _KIND_MOVED_TPL kind old_name new_name
    let out_message := generate_message pre message version removal_version
    (deprecation out_message stacklevel category ++ [Event.call args], f.fn args)

/-- The host language's `str.endswith`: `suf` is a suffix of `s`, checked on
the character sequences. -/
def ends_with (s suf : String) : Bool :=
  suf.data.isSuffixOf s.data

/-- The new-name normalisation of `moved_method` (`moves.py` lines 143-144):
append `"()"` unless the name already ends with it. -/
def moved_method_new_name (new_method_name : String) : String :=
  if ends_with new_method_name _MOVED_CALLABLE_SUFFIX then new_method_name
  else new_method_name ++ _MOVED_CALLABLE_SUFFIX

/-- `moved_method` of `moves.py` (lines 139-149): normalise the new name,
then delegate to `_moved_decorator` with kind `"Method"` and
`attr_postfix="()"`. -/
def moved_method {α β : Type} (new_method_name : String)
    (message version removal_version : Option String)
    (stacklevel : Nat) (category : Option String)
    (f : DecoratedFunc α β) : String → α → List (Event α) × β :=
  _moved_decorator "Method" (moved_method_new_name new_method_name)
    message version removal_version stacklevel
    (some _MOVED_CALLABLE_SUFFIX) category f

/-- `moved_property` of `moves.py` (lines 152-158): delegate to
`_moved_decorator` with kind `"Property"` and no attribute postfix. -/
def moved_property {α β : Type} (new_attribute_name : String)
    (message version removal_version : Option String)
    (stacklevel : Nat) (category : Option String)
    (f : DecoratedFunc α β) : String → α → List (Event α) × β :=
  _moved_decorator "Property" new_attribute_name
    message version removal_version stacklevel none category f

/-- The state of a `moved_read_only_property` descriptor after `__init__`
(`moves.py` lines 114-124): the two names, the precomputed message, the
stacklevel and the optional category. -/
structure MovedReadOnlyProperty where
  _old_name : String
  _new_name : String
  _message : String
  _stacklevel : Nat
  _category : Option String

/-- `moved_read_only_property.__init__` (`moves.py` lines 114-124): stores
the names and precomputes the message with `_utils.generate_message` (no
custom message is passed). -/
def MovedReadOnlyProperty.init (old_name new_name : String)
    (version removal_version : Option String)
    (stacklevel : Nat) (category : Option String) : MovedReadOnlyProperty :=
  { _old_name := old_name
    _new_name := new_name
    _message := generate_message
      ("Read-only property '" ++ old_name ++ "' has moved to '" ++
        new_name ++ "'") none version removal_version
    _stacklevel := stacklevel
    _category := category }

/-- An attribute namespace (an instance's or a class's): attribute name to
value; `none` means the attribute is absent, so that a `getattr` on it
raises `AttributeError`. -/
def AttrSpace (V : Type) : Type := String → Option V

/-- `moved_read_only_property.__get__` (`moves.py` lines 126-136): emit the
deprecation warning first, then pick the instance when one is bound (else
the owning class) and look the new name up on it with `getattr`.  The result
is `none` exactly when that `getattr` raises `AttributeError`; the warning
event has been emitted either way.  The forwarding lookup is recorded as a
`call` event carrying the attribute name it passes on. -/
def MovedReadOnlyProperty.get {V : Type} (p : MovedReadOnlyProperty)
    (inst : Option (AttrSpace V)) (owner : AttrSpace V) :
    List (Event String) × Option V :=
  let real_owner :=
    match inst with
    | some i => i
    | none => owner
  (deprecation p._message p._stacklevel p._category ++
     [Event.call p._new_name],
   real_owner p._new_name)

/-- A host-language class value as `moved_class` consumes it: display name,
module, and the behaviour of its `__init__` (argument tuple to constructed
state). -/
structure PyClass (α β : Type) where
  name : String
  module : String
  init : α → β

/-- Modelled from the spec: `_utils.get_class_name` with its default
`fully_qualified=True` (Name Resolver, in `debtcollector/_utils.py`, absent
from the examined sources): the dotted module-qualified class name. -/
def get_class_name {α β : Type} (c : PyClass α β) : String :=
  c.module ++ "." ++ c.name

/-- Instantiating a class directly: a plain constructor call emits no
warning event and runs `__init__` on the arguments. -/
def instantiate {α β : Type} (c : PyClass α β) (args : α) :
    List (Event α) × β :=
  ([], c.init args)

/-- The argument of `moved_class`: either a genuine class value, or a
non-class value, of which `_utils.get_qualified_name(type(new_class))` can
still name the type (`moves.py` line 173). -/
inductive ClassArg (α β : Type) where
  | cls (c : PyClass α β)
  | nonClass (type_name : String)

/-- The old-named type synthesized by `moved_class`
(`type(old_class_name, (new_class,), {})`, `moves.py` line 194): its name,
its module (overwritten at line 195), and its wrapped `__init__`, whose
invocations now yield events alongside the constructed state. -/
structure OldClass (α β : Type) where
  name : String
  module : String
  init : α → List (Event α) × β

/-- `moved_class` of `moves.py` (lines 161-197).  When `new_class` is not a
class, raise `TypeError("Unexpected class type '%s' (expected class type
only)")` naming the offending value's type, constructing nothing.  Otherwise
build the message once from the old dotted name and
`_utils.get_class_name(new_class)`, synthesize the subclass named
`old_class_name` with module `old_module_name`, and replace its `__init__`
with a wrapper that emits the precomputed message and then delegates to the
inherited (new class's) `__init__` with all arguments forwarded; `new_class`
itself is left untouched. -/
def moved_class {α β : Type} (new_class : ClassArg α β)
    (old_class_name old_module_name : String)
    (message version removal_version : Option String)
    (stacklevel : Nat) (category : Option String) :
    Except String (OldClass α β) :=
  match new_class with
  | ClassArg.nonClass type_name =>
    Except.error
      ("Unexpected class type '" ++ type_name ++
        "' (expected class type only)")
  | ClassArg.cls c =>
    let old_name := old_module_name ++ "." ++ old_class_name
    let new_name := get_class_name c
    let pre := _CLASS_MOVED_TPL old_name new_name
    let out_message := generate_message pre message version removal_version
    Except.ok
      { name := old_class_name
        module := old_module_name
        init := fun args =>
          (deprecation out_message stacklevel category ++ [Event.call args],
           c.init args) }

/-- C1: For every wrapper produced by `moved_function`, `moved_method`,
`moved_property`, `moved_read_only_property`, or `moved_class`, every
invocation emits exactly one deprecation warning before making exactly one
forwarding call to the target, with all arguments passed through unchanged
and the target's return value returned unchanged; in particular
`moved_function(f, "old", "mod")(x) == f(x)` for every `x` in `f`'s domain. -/
theorem wrappers_warn_once_then_forward
    {α β V : Type} (nf : PyCallable α β) (ofn omn : String)
    (msg v rv : Option String) (sl : Nat) (cat : Option String) (x : α)
    (nmn nan : String) (df : DecoratedFunc α β) (base : String)
    (po pn : String) (i o : AttrSpace V)
    (c : PyClass α β) (ocn omn2 : String) :
    (∃ m, (moved_function nf ofn omn msg v rv sl cat).fn x
        = ([Event.warn m sl cat, Event.call x], nf.fn x))
    ∧ (∃ m, moved_method nmn msg v rv sl cat df base x
        = ([Event.warn m sl cat, Event.call x], df.fn x))
    ∧ (∃ m, moved_property nan msg v rv sl cat df base x
        = ([Event.warn m sl cat, Event.call x], df.fn x))
    ∧ (∃ m, (MovedReadOnlyProperty.init po pn v rv sl cat).get (some i) o
          = ([Event.warn m sl cat, Event.call pn], i pn)
        ∧ (MovedReadOnlyProperty.init po pn v rv sl cat).get none o
          = ([Event.warn m sl cat, Event.call pn], o pn))
    ∧ (∃ w m, moved_class (ClassArg.cls c) ocn omn2 msg v rv sl cat
          = Except.ok w
        ∧ w.init x = ([Event.warn m sl cat, Event.call x], c.init x)) :=
  ⟨⟨_, rfl⟩, ⟨_, rfl⟩, ⟨_, rfl⟩, ⟨_, rfl, rfl⟩, ⟨_, _, rfl, rfl⟩⟩

/-- C2: `moved_class` raises a type error whenever `new_class` is not a
class value, the error message names the type of the offending value, and no
new type is constructed in that case; on a genuine class it never errors
(matching that this `raise` is the only one in the library: every other
operation of the embedding is total by construction). -/
theorem moved_class_type_error_on_non_class
    {α β : Type} (type_name ocn omn : String) (msg v rv : Option String)
    (sl : Nat) (cat : Option String) (c : PyClass α β) :
    moved_class (ClassArg.nonClass type_name : ClassArg α β) ocn omn
        msg v rv sl cat
      = Except.error ("Unexpected class type '" ++ type_name ++
          "' (expected class type only)")
    ∧ (∃ w, moved_class (ClassArg.cls c) ocn omn msg v rv sl cat
        = Except.ok w) :=
  ⟨rfl, ⟨_, rfl⟩⟩

/-- C3: `generate_message` returns the sole prefix when all optional fields
are absent; with version "1.0" and removal version "2.0" the result ends
with "in version 1.0 and will be removed in 2.0"; with the sentinel "?" it
ends with "in version 1.0 and will be removed in a future version"; without
a version no version clause appears. -/
theorem generate_message_format (pre : String) (msg rv : Option String) :
    generate_message pre none none none = pre
    ∧ (∃ s, generate_message pre msg (some "1.0") (some "2.0")
        = s ++ "in version 1.0 and will be removed in 2.0")
    ∧ (∃ s, generate_message pre msg (some "1.0") (some "?")
        = s ++ "in version 1.0 and will be removed in a future version")
    ∧ generate_message pre msg none rv = generate_message pre msg none none :=
  by
    refine ⟨rfl, ?_, ?_, rfl⟩
    · cases msg <;> exact ⟨_, rfl⟩
    · cases msg <;> exact ⟨_, rfl⟩

/-- C4: `moved_method` appends "()" to the new method name exactly when it
does not already end with "()"; `moved_method("target")` produces the new
name "target()" in the emitted message and `moved_method("target()")` does
not produce "target()()" — both wrappers emit the very same message. -/
theorem moved_method_appends_suffix_once
    (n : String) (msg v rv : Option String) (sl : Nat) (cat : Option String)
    (df : DecoratedFunc Unit Unit) (base : String) :
    (ends_with n "()" = false → moved_method_new_name n = n ++ "()")
    ∧ (ends_with n "()" = true → moved_method_new_name n = n)
    ∧ moved_method_new_name "target" = "target()"
    ∧ moved_method_new_name "target()" = "target()"
    ∧ moved_method "target" msg v rv sl cat df base
        = moved_method "target()" msg v rv sl cat df base
    ∧ moved_method "target" none none none 3 none
        (⟨false, "m", fun u => u⟩ : DecoratedFunc Unit Unit) "C" ()
        = ([Event.warn "Method 'C.m()' has moved to 'C.target()'" 3 none,
            Event.call ()], ()) :=
  by
    refine ⟨?_, ?_, rfl, rfl, rfl, rfl⟩
    · intro h
      simp [moved_method_new_name, _MOVED_CALLABLE_SUFFIX, h]
    · intro h
      simp [moved_method_new_name, _MOVED_CALLABLE_SUFFIX, h]

/-- Witness for C4: both hypotheses discharged on concrete names. -/
theorem moved_method_appends_suffix_once_witness :
    (ends_with "target" "()" = false
      ∧ moved_method_new_name "target" = "target" ++ "()")
    ∧ (ends_with "target()" "()" = true
      ∧ moved_method_new_name "target()" = "target()") :=
  ⟨⟨by decide,
    (moved_method_appends_suffix_once "target" none none none 3 none
      ⟨false, "m", fun u => u⟩ "C").1 (by decide)⟩,
   ⟨by decide,
    (moved_method_appends_suffix_once "target()" none none none 3 none
      ⟨false, "m", fun u => u⟩ "C").2.1 (by decide)⟩⟩

/-- C5: a `moved_read_only_property` read through an instance returns
`getattr(instance, new_name)`; through the class alone it returns
`getattr(owner_class, new_name)`; each access emits exactly one deprecation
warning, the same precomputed one in both modes. -/
theorem moved_read_only_property_resolution
    {V : Type} (po pn : String) (v rv : Option String) (sl : Nat)
    (cat : Option String) (i o : AttrSpace V) :
    ((MovedReadOnlyProperty.init po pn v rv sl cat).get (some i) o).2 = i pn
    ∧ ((MovedReadOnlyProperty.init po pn v rv sl cat).get none o).2 = o pn
    ∧ (∃ m,
        ((MovedReadOnlyProperty.init po pn v rv sl cat).get (some i) o).1
          = [Event.warn m sl cat, Event.call pn]
        ∧ ((MovedReadOnlyProperty.init po pn v rv sl cat).get none o).1
          = [Event.warn m sl cat, Event.call pn]) :=
  ⟨rfl, rfl, ⟨_, rfl, rfl⟩⟩

/-- C8: `moved_read_only_property.__get__` emits the warning before the
attribute lookup: the event trace begins with the warning unconditionally,
and when the new name is absent on the chosen owner the access yields the
`AttributeError` outcome (`none`) with the warning already emitted. -/
theorem moved_read_only_property_warns_before_lookup
    {V : Type} (po pn : String) (v rv : Option String) (sl : Nat)
    (cat : Option String) (i o : AttrSpace V) :
    ((MovedReadOnlyProperty.init po pn v rv sl cat).get (some i) o).1
      = [Event.warn
          (MovedReadOnlyProperty.init po pn v rv sl cat)._message sl cat,
         Event.call pn]
    ∧ (i pn = none →
        (MovedReadOnlyProperty.init po pn v rv sl cat).get (some i) o
          = ([Event.warn
              (MovedReadOnlyProperty.init po pn v rv sl cat)._message sl cat,
              Event.call pn], none))
    ∧ (o pn = none →
        (MovedReadOnlyProperty.init po pn v rv sl cat).get none o
          = ([Event.warn
              (MovedReadOnlyProperty.init po pn v rv sl cat)._message sl cat,
              Event.call pn], none)) :=
  by
    refine ⟨rfl, ?_, ?_⟩
    · intro h
      simp only [MovedReadOnlyProperty.get, MovedReadOnlyProperty.init,
        deprecation]
      rw [h]
      rfl
    · intro h
      simp only [MovedReadOnlyProperty.get, MovedReadOnlyProperty.init,
        deprecation]
      rw [h]
      rfl

/-- Witness for C8: an instance namespace lacking the new attribute; the
warning is emitted and the lookup yields the error outcome. -/
theorem moved_read_only_property_warns_before_lookup_witness :
    ((fun _ => none : AttrSpace Unit) "q" = none)
    ∧ (MovedReadOnlyProperty.init "a" "q" none none 3 none).get
        (some (fun _ => none : AttrSpace Unit)) (fun _ => none)
      = ([Event.warn "Read-only property 'a' has moved to 'q'" 3 none,
          Event.call "q"], none) :=
  ⟨rfl,
   (moved_read_only_property_warns_before_lookup "a" "q" none none 3 none
      (fun _ => none) (fun _ => none)).2.1 rfl⟩

/-- C9: `moved_function` appends the "()" marker unconditionally to both the
old dotted name and the resolved new-function name — the emitted message for
every old name is built from `old_module_name ++ "." ++ old_func_name ++
"()"` with no already-ends-with check — so an `old_func_name` that already
ends in "()" yields "()()" in the message, unlike `moved_method`, whose
normalisation leaves such a name unchanged. -/
theorem moved_function_appends_suffix_unconditionally
    {α β : Type} (nf : PyCallable α β) (ofn omn : String)
    (msg v rv : Option String) (sl : Nat) (cat : Option String) (x : α) :
    ((moved_function nf ofn omn msg v rv sl cat).fn x).1
      = [Event.warn (generate_message
          (_FUNC_MOVED_TPL (omn ++ "." ++ ofn ++ "()")
            (nf.module ++ "." ++ nf.name ++ "()")) msg v rv) sl cat,
         Event.call x]
    ∧ (∃ s t,
        ((moved_function (⟨"g", "m", fun u => u⟩ : PyCallable Unit Unit)
            "f()" "mod" none none none 3 none).fn ()).1
          = [Event.warn (s ++ "f()()" ++ t) 3 none, Event.call ()])
    ∧ moved_method_new_name "f()" = "f()" :=
  ⟨rfl, ⟨"Function 'mod.", "' has moved to 'm.g()'", rfl⟩, rfl⟩

/-- C10: `moved_class` leaves `new_class` itself untouched — direct
instantiation of the given class emits no warning and runs its own
`__init__` unchanged — while the returned old-named subclass carries the old
name and module and its every instantiation emits the warning and then
delegates to the original `__init__` with the arguments forwarded
unchanged. -/
theorem moved_class_new_class_untouched
    {α β : Type} (c : PyClass α β) (ocn omn : String)
    (msg v rv : Option String) (sl : Nat) (cat : Option String) (x : α) :
    instantiate c x = ([], c.init x)
    ∧ (∃ w m, moved_class (ClassArg.cls c) ocn omn msg v rv sl cat
          = Except.ok w
        ∧ w.name = ocn
        ∧ w.module = omn
        ∧ w.init x = ([Event.warn m sl cat, Event.call x], c.init x)) :=
  ⟨rfl, ⟨_, _, rfl, rfl, rfl, rfl⟩⟩

/-- C6 counterexample: the claim "for every wrapper produced by any of the
four Wrapper Constructors the message is computed once at construction and
every invocation emits that same cached string regardless of call-time
state" is false: one `moved_method`-produced wrapper, invoked on instances
of two differently named owning classes, emits two different strings. -/
theorem moved_method_message_not_cached
    : (moved_method "n" none none none 3 none
        (⟨false, "m", fun u => u⟩ : DecoratedFunc Unit Unit) "A" ()).1
      ≠ (moved_method "n" none none none 3 none
        (⟨false, "m", fun u => u⟩ : DecoratedFunc Unit Unit) "B" ()).1 :=
  by decide

/-- C6 amended: `moved_function`, `moved_class` and the read-only property
descriptor fix the message at construction time and emit that same string on
every invocation; the `moved_method`/`moved_property` wrappers instead
rebuild the message at each invocation from the call-time owning class name
(the Property formula below), so their emitted string can differ between
invocations of the same wrapper. -/
theorem message_caching_per_constructor
    {α β V : Type} (nf : PyCallable α β) (ofn omn : String)
    (msg v rv : Option String) (sl : Nat) (cat : Option String)
    (c : PyClass α β) (ocn omn2 : String) (po pn : String)
    (df : DecoratedFunc α β) (nan : String) :
    (∃ m, ∀ x, ((moved_function nf ofn omn msg v rv sl cat).fn x).1
        = [Event.warn m sl cat, Event.call x])
    ∧ (∃ w m, moved_class (ClassArg.cls c) ocn omn2 msg v rv sl cat
          = Except.ok w
        ∧ ∀ x, (w.init x).1 = [Event.warn m sl cat, Event.call x])
    ∧ (∃ m, ∀ (i : Option (AttrSpace V)) (o : AttrSpace V),
        ((MovedReadOnlyProperty.init po pn v rv sl cat).get i o).1
          = [Event.warn m sl cat, Event.call pn])
    ∧ (∀ base x, (moved_property nan msg v rv sl cat df base x).1
        = [Event.warn (generate_message
            (_KIND_MOVED_TPL "Property"
              (if df.fully_qualified then df.attr_name
               else base ++ "." ++ df.attr_name)
              (base ++ "." ++ nan)) msg v rv) sl cat,
           Event.call x])
    ∧ ((moved_method "n" none none none 3 none
          (⟨false, "m", fun u => u⟩ : DecoratedFunc Unit Unit) "A" ()).1
        ≠ (moved_method "n" none none none 3 none
          (⟨false, "m", fun u => u⟩ : DecoratedFunc Unit Unit) "B" ()).1) :=
  by
    refine ⟨⟨generate_message
        (_FUNC_MOVED_TPL (omn ++ "." ++ ofn ++ _MOVED_CALLABLE_SUFFIX)
          (get_callable_name nf ++ _MOVED_CALLABLE_SUFFIX)) msg v rv,
        fun x => rfl⟩,
      ⟨_, generate_message
        (_CLASS_MOVED_TPL (omn2 ++ "." ++ ocn) (get_class_name c)) msg v rv,
        rfl, fun x => rfl⟩,
      ⟨generate_message
        ("Read-only property '" ++ po ++ "' has moved to '" ++ pn ++ "'")
        none v rv, ?_⟩,
      fun base x => ?_, by decide⟩
    · intro i o
      cases i <;> rfl
    · cases h : df.fully_qualified <;>
        simp [moved_property, _moved_decorator, deprecation, h]

end Moves
